import Mathlib

/-!
Verification development for the `django-govbrds` repository.

The repository's core consists of
  * `src/django_govbrds/core.py` — the settings cascade (`get_govbrds_setting`)
    and renderer resolution (`get_renderer`), and
  * `src/django_govbrds/templatetags/django_govbrds.py` — the pagination
    context builder `get_pagination_context` (window arithmetic, URL query
    merging, CSS class assembly, argument validation).

Python integers are embedded as `Int`, Python `None`-able values as `Option`,
Python dicts (which preserve insertion order and have unique keys) as
insertion-ordered association lists, and raising `ValueError` as returning
`Except.error`.
-/

namespace DjangoGovbrds

/-! ### Insertion-ordered dictionaries (Python `dict`) -/

/-- `d.get(k)` on an insertion-ordered association list: the value at the first
entry whose key is `k`. Python dicts have unique keys, so on dict-shaped lists
this is the value stored under `k`. -/
def pyGet {α : Type} : List (String × α) → String → Option α
  | [], _ => none
  | kv :: rest, k => if kv.1 = k then some kv.2 else pyGet rest k

/-- `k in d` for Python dicts. -/
def hasKey {α : Type} (d : List (String × α)) (k : String) : Bool :=
  (pyGet d k).isSome

/-- The keys of a dict, in insertion order. -/
def keysOf {α : Type} (d : List (String × α)) : List String :=
  d.map Prod.fst

/-- `d[k] = v` on a Python dict: if `k` is already a key, replace its value in
place (insertion order of keys is kept); otherwise append the new key at the
end. -/
def dictSet {α : Type} (d : List (String × α)) (k : String) (v : α) :
    List (String × α) :=
  if hasKey d k then d.map (fun kv => if kv.1 = k then (kv.1, v) else kv)
  else d ++ [(k, v)]

/-- `base.update(other)` on Python dicts: each entry of `other`, in order,
is written into `base` with `dictSet` (replacing the values of existing keys,
appending new keys). -/
def dictUpdate {α : Type} (base other : List (String × α)) :
    List (String × α) :=
  other.foldl (fun acc kv => dictSet acc kv.1 kv.2) base

/-! ### The pagination window (`get_pagination_context`, lines 742-766) -/

/-- The window-arithmetic part of the pagination context: `first_page`,
`last_page`, the optional `pages_back` / `pages_forward` jump targets and the
list `pages_shown`. -/
structure PaginationWindow where
  first_page : Int
  last_page : Int
  pages_back : Option Int
  pages_forward : Option Int
  pages_shown : List Int
deriving DecidableEq

/-- Python's `range(first, last + 1)` over integers, as the list
`[first, first + 1, ..., last]` (empty when `last < first`). This embeds the
loop `for i in range(first_page, last_page + 1): pages_shown.append(i)`. -/
def pagesRange (first last : Int) : List Int :=
  (List.range (last + 1 - first).toNat).map (fun i => first + Int.ofNat i)

/-- The pagination window computation of `get_pagination_context`
(templatetags/django_govbrds.py lines 742-766), translated statement by
statement. `pages_to_show` is already validated to be `≥ 1` by the caller, so
Python's `floor(pages_to_show / 2)` is the truncating division
`pages_to_show / 2` on nonnegative integers. -/
def computeWindow (pages_to_show num_pages current_page : Int) :
    PaginationWindow :=
  let delta_pages := pages_to_show / 2
  let first_page := max 1 (current_page - delta_pages)
  let pages_back : Option Int :=
    if first_page > 1 then some (max 1 (first_page - delta_pages)) else none
  let last_page := first_page + pages_to_show - 1
  let last_page := if pages_back = none then last_page + 1 else last_page
  let last_page := if last_page > num_pages then num_pages else last_page
  if last_page < num_pages then
    { first_page := first_page
      last_page := last_page
      pages_back := pages_back
      pages_forward := some (min (last_page + delta_pages) num_pages)
      pages_shown := pagesRange first_page last_page }
  else
    let first_page := if first_page > 1 then first_page - 1 else first_page
    let pages_back :=
      match pages_back with
      | some b => if b > 1 then some (b - 1) else none
      | none => none
    { first_page := first_page
      last_page := last_page
      pages_back := pages_back
      pages_forward := none
      pages_shown := pagesRange first_page last_page }

/-- The reference algorithm of spec section 4.3, written from the spec's
words (steps 1-7): `delta = floor(windowSize/2)`;
`firstPage = max(1, currentPage - delta)`;
`backTarget = max(1, firstPage - delta)` if `firstPage > 1` else absent;
`lastPage = firstPage + windowSize - 1`, extended by 1 when `backTarget` is
absent, then clamped with `min` to `totalPages`; if `lastPage < totalPages`
then `forwardTarget = min(lastPage + delta, totalPages)`, else `forwardTarget`
is absent, `firstPage` is decremented when `> 1` and `backTarget` is
decremented when present and `> 1`, otherwise cleared; `pagesShown` is the
inclusive range `[firstPage, lastPage]`. -/
def specComputeWindow (windowSize totalPages currentPage : Int) :
    PaginationWindow :=
  let delta := windowSize / 2
  let firstPage := max 1 (currentPage - delta)
  let backTarget : Option Int :=
    if firstPage > 1 then some (max 1 (firstPage - delta)) else none
  let lastPage := firstPage + windowSize - 1
  let lastPage := if backTarget = none then lastPage + 1 else lastPage
  let lastPage := min lastPage totalPages
  if lastPage < totalPages then
    { first_page := firstPage
      last_page := lastPage
      pages_back := backTarget
      pages_forward := some (min (lastPage + delta) totalPages)
      pages_shown := pagesRange firstPage lastPage }
  else
    let firstPage := if firstPage > 1 then firstPage - 1 else firstPage
    let backTarget :=
      match backTarget with
      | some b => if b > 1 then some (b - 1) else none
      | none => none
    { first_page := firstPage
      last_page := lastPage
      pages_back := backTarget
      pages_forward := none
      pages_shown := pagesRange firstPage lastPage }

/-! ### URL parsing, query-string parsing and re-encoding

`get_pagination_context` rebuilds its `url` argument with
`urlparse` / `parse_qs` / `urlencode(…, doseq=True)` / `urlunparse` (lines
768-781). Those collaborators come from the Python standard library and from
Django; they are embedded here at the level of behaviour the repository relies
on. `urlparse` is modelled by splitting off the fragment at the first `#` and
the query at the first `?` of what precedes it — exactly how the standard
library isolates the query — while scheme, authority, path and params are kept
together as one opaque chunk, since the repository never modifies them and
`urlunparse` reassembles them verbatim. -/

/-- Split a character list at every occurrence of `c`
(Python `str.split(c)`): always returns at least one (possibly empty)
segment. -/
def splitChar : List Char → Char → List (List Char)
  | [], _ => [[]]
  | x :: xs, c =>
    match splitChar xs c with
    | [] => [[]]
    | seg :: segs => if x = c then [] :: seg :: segs else (x :: seg) :: segs

/-- Split a character list at the first occurrence of `c`
(Python `str.split(c, 1)`): the part before it, and — when `c` occurs — the
part after it. -/
def splitFirst : List Char → Char → List Char × Option (List Char)
  | [], _ => ([], none)
  | x :: xs, c =>
    if x = c then ([], some xs)
    else
      let r := splitFirst xs c
      (x :: r.1, r.2)

/-- The value of a hexadecimal digit character, if it is one. -/
def hexDigitVal (c : Char) : Option Nat :=
  if '0' ≤ c ∧ c ≤ '9' then some (c.toNat - '0'.toNat)
  else if 'a' ≤ c ∧ c ≤ 'f' then some (c.toNat - 'a'.toNat + 10)
  else if 'A' ≤ c ∧ c ≤ 'F' then some (c.toNat - 'A'.toNat + 10)
  else none

/-- `urllib.parse.unquote_plus` on characters: `+` becomes a space and
`%hh` (two hex digits) becomes the character with that code; anything else is
kept. (Multi-byte UTF-8 escape sequences decode byte by byte here, which is
faithful for the ASCII data the repository handles.) -/
def unquoteChars : List Char → List Char
  | [] => []
  | '+' :: rest => ' ' :: unquoteChars rest
  | '%' :: h :: l :: rest =>
    match hexDigitVal h, hexDigitVal l with
    | some hv, some lv => Char.ofNat (16 * hv + lv) :: unquoteChars rest
    | _, _ => '%' :: unquoteChars (h :: l :: rest)
  | c :: rest => c :: unquoteChars rest

/-- `urllib.parse.unquote_plus` on strings. -/
def unquote_plus (s : String) : String :=
  String.mk (unquoteChars s.data)

/-- Characters `urllib.parse.quote_plus` never escapes: ASCII letters, digits
and `_ . - ~`. -/
def isUrlSafe (c : Char) : Bool :=
  ('a' ≤ c && c ≤ 'z') || ('A' ≤ c && c ≤ 'Z') || ('0' ≤ c && c ≤ '9')
    || c == '_' || c == '.' || c == '-' || c == '~'

/-- The uppercase hexadecimal digit for `n < 16`. -/
def hexDigitChar (n : Nat) : Char :=
  if n < 10 then Char.ofNat (48 + n) else Char.ofNat (55 + n)

/-- `urllib.parse.quote_plus` on one character: safe characters are kept,
a space becomes `+`, anything else becomes `%HH`. -/
def quotePlusChar (c : Char) : List Char :=
  if isUrlSafe c then [c]
  else if c = ' ' then ['+']
  else ['%', hexDigitChar (c.toNat / 16 % 16), hexDigitChar (c.toNat % 16)]

/-- `urllib.parse.quote_plus` on strings. -/
def quote_plus (s : String) : String :=
  String.mk (s.data.foldr (fun c acc => quotePlusChar c ++ acc) [])

/-- A parsed query string as a dict from name to its list of values, in
insertion order. -/
abbrev QueryDict := List (String × List String)

/-- One accumulation step of `parse_qs`: append `v` to the values already
collected under `k`, or open a new entry `k ↦ [v]`. -/
def dictAppendVal (d : QueryDict) (k v : String) : QueryDict :=
  if hasKey d k then
    d.map (fun kv => if kv.1 = k then (kv.1, kv.2 ++ [v]) else kv)
  else d ++ [(k, [v])]

/-- `urllib.parse.parse_qsl` with default options: split the query string on
`&`, split each field at its first `=`, percent-decode both halves; fields
without `=` and fields with an empty value are skipped
(`keep_blank_values=False`). -/
def parse_qsl (qs : String) : List (String × String) :=
  (splitChar qs.data '&').filterMap fun field =>
    match splitFirst field '=' with
    | (_, none) => none
    | (name, some value) =>
      if value = [] then none
      else some (unquote_plus (String.mk name), unquote_plus (String.mk value))

/-- `urllib.parse.parse_qs`: group the `parse_qsl` pairs into a dict from name
to the list of its values, in order of first occurrence. -/
def parse_qs (qs : String) : QueryDict :=
  (parse_qsl qs).foldl (fun acc nv => dictAppendVal acc nv.1 nv.2) []

/-- The components of a parsed URL that `get_pagination_context` keeps:
everything before the query (scheme, authority, path and params, reassembled
verbatim by `urlunparse`), the query, and the fragment. -/
structure UrlParts where
  beforeQuery : String
  query : String
  fragment : String
deriving DecidableEq

/-- `urllib.parse.urlparse`, at the granularity the repository uses: the
fragment is everything after the first `#`, the query is everything after the
first `?` of what precedes the fragment, and the rest is kept opaque. -/
def urlparse (url : String) : UrlParts :=
  let fragSplit := splitFirst url.data '#'
  let querySplit := splitFirst fragSplit.1 '?'
  { beforeQuery := String.mk querySplit.1
    query := String.mk (querySplit.2.getD [])
    fragment := String.mk (fragSplit.2.getD []) }

/-- `urllib.parse.urlunparse` with the query component replaced: the opaque
pre-query chunk, then `?query` when the query is non-empty, then `#fragment`
when the fragment is non-empty. -/
def urlunparse (p : UrlParts) (query : String) : String :=
  p.beforeQuery ++ (if query = "" then "" else "?" ++ query)
    ++ (if p.fragment = "" then "" else "#" ++ p.fragment)

/-- `django.utils.http.urlencode(params, doseq=True)`: one `name=value` pair
per value, in dict order. -/
def urlencodePairs (d : QueryDict) : List (String × String) :=
  d.foldr (fun kv acc => kv.2.map (fun v => (kv.1, v)) ++ acc) []

/-- `django.utils.http.urlencode(params, doseq=True)`: percent-encode each
name and value and join the pairs with `&`. -/
def urlencode (d : QueryDict) : String :=
  String.intercalate "&"
    ((urlencodePairs d).map (fun nv => quote_plus nv.1 ++ "=" ++ quote_plus nv.2))

/-! ### The full pagination context builder -/

/-- The `ValueError`s `get_pagination_context` can raise: one for a
non-positive `pages_to_show` (line 737) and one for an unrecognized
`justify_content` (lines 793-796); each carries the offending value. -/
inductive PaginationError where
  | invalidPagesToShow (given : Int)
  | invalidJustifyContent (given : String)
deriving DecidableEq

/-- The dictionary returned by `get_pagination_context` (lines 798-809). -/
structure PaginationContext where
  govbrds_pagination_url : String
  num_pages : Int
  current_page : Int
  first_page : Int
  last_page : Int
  pages_shown : List Int
  pages_back : Option Int
  pages_forward : Option Int
  pagination_css_classes : String
  parameter_name : String
deriving DecidableEq

/-- Modelled from the spec: `get_size_class` is called at line 785 with
`get_size_class(size, prefix="pagination", skip="md")` but its definition is
not under src (the spec lists CSS-class utilities as out-of-scope
collaborators and describes `size` only as an enumerated string option). It is
modelled as producing the size-suffixed class `PFX-size`, and nothing for the
skipped medium keyword; no claim depends on it, and every theorem below passes
`size = none` so this branch is never taken. -/
def get_size_class (size pfx skip : String) : String :=
  if size = skip then "" else pfx ++ "-" ++ size

/-- `get_pagination_context` (templatetags/django_govbrds.py lines 724-809).
The Django `page` object contributes exactly `page.paginator.num_pages` and
`page.number`, passed here as the two leading integers; the keyword arguments
follow in source order with their source defaults. Python `None` defaults
become `Option.none`, and Python truthiness tests on the optional strings
(`url or ""`, `if extra:`, `if size:`, `if justify_content:`) treat both
`None` and the empty string as falsy. -/
def get_pagination_context (num_pages current_page : Int)
    (pages_to_show : Int := 11) (url : Option String := none)
    (size : Option String := none) (justify_content : Option String := none)
    (extra : Option String := none) (parameter_name : String := "page") :
    Except PaginationError PaginationContext :=
  if pages_to_show < 1 then .error (.invalidPagesToShow pages_to_show)
  else
    let w := computeWindow pages_to_show num_pages current_page
    let parts := urlparse ((url.getD ""))
    let params := parse_qs parts.query
    let params :=
      match extra with
      | none => params
      | some e => if e = "" then params else dictUpdate params (parse_qs e)
    let newUrl := urlunparse parts (urlencode params)
    let classes := ["pagination"]
    let classes :=
      match size with
      | none => classes
      | some s =>
        if s = "" then classes
        else
          let sizeClass := get_size_class s "pagination" "md"
          if sizeClass = "" then classes else classes ++ [sizeClass]
    let finish (classes : List String) : PaginationContext :=
      { govbrds_pagination_url := newUrl
        num_pages := num_pages
        current_page := current_page
        first_page := w.first_page
        last_page := w.last_page
        pages_shown := w.pages_shown
        pages_back := w.pages_back
        pages_forward := w.pages_forward
        pagination_css_classes := String.intercalate " " classes
        parameter_name := parameter_name }
    match justify_content with
    | none => .ok (finish classes)
    | some j =>
      if j = "" then .ok (finish classes)
      else if j = "start" ∨ j = "center" ∨ j = "end" then
        .ok (finish (classes ++ ["justify-content-" ++ j]))
      else .error (.invalidJustifyContent j)

/-! ### The settings cascade and renderer resolution (`core.py`) -/

/-- The kinds of values stored in the settings tables of `core.py`: strings,
booleans, Python `None`, and string-to-string dicts (the URL dicts and the
renderer variant maps). -/
inductive SettingValue where
  | str (s : String)
  | bool (b : Bool)
  | none
  | strMap (m : List (String × String))
deriving DecidableEq

/-- The library defaults table `GOVBRDS_DEFAULTS` of `core.py` lines 6-33,
entry for entry. -/
def GOVBRDS_DEFAULTS : List (String × SettingValue) :=
  [("css_url", .strMap [("url", "govbrds3/css/style.min.css")]),
   ("javascript_url", .strMap [("url", "govbrds3/js/script.js")]),
   ("theme_url", .none),
   ("color_mode", .none),
   ("javascript_in_head", .bool false),
   ("wrapper_class", .str "mb-3"),
   ("inline_wrapper_class", .str ""),
   ("horizontal_label_class", .str "col-sm-2"),
   ("horizontal_field_class", .str "col-sm-10"),
   ("horizontal_field_offset_class", .str "offset-sm-2"),
   ("set_placeholder", .bool true),
   ("checkbox_layout", .none),
   ("checkbox_style", .none),
   ("required_css_class", .str ""),
   ("error_css_class", .str ""),
   ("success_css_class", .str ""),
   ("server_side_validation", .bool true),
   ("formset_renderers",
     .strMap [("default", "django_govbrds.renderers.FormsetRenderer")]),
   ("form_renderers",
     .strMap [("default", "django_govbrds.renderers.FormRenderer")]),
   ("field_renderers",
     .strMap [("default", "django_govbrds.renderers.FieldRenderer")])]

/-- `get_govbrds_setting` (`core.py` lines 36-47):
`govbrds_settings.get(name, GOVBRDS_DEFAULTS.get(name, default))`, where
`govbrds_settings = getattr(settings, "GOVBRDS", {})` is the host
application's `GOVBRDS` table (passed here explicitly; a host without one
contributes the empty table) and `default` defaults to Python `None`. -/
def get_govbrds_setting (hostSettings : List (String × SettingValue))
    (name : String) (default : SettingValue := .none) : SettingValue :=
  (pyGet hostSettings name).getD ((pyGet GOVBRDS_DEFAULTS name).getD default)

/-- `get_renderer` (`core.py` lines 65-69):
`layout = kwargs.get("layout", ""); path = renderers.get(layout,
renderers["default"])`. Python evaluates `renderers["default"]` before the
`.get` call, so a variant map without a `"default"` key raises `KeyError`
(modelled as `Except.error`) even when the layout key is present. The final
`import_module` dereference of the dotted path is the external collaborator's
job; the resolved path string is returned. -/
def get_renderer (renderers : List (String × String))
    (kwargsLayout : Option String := none) : Except String String :=
  let layout := kwargsLayout.getD ""
  match pyGet renderers "default" with
  | Option.none => .error "default"
  | some dflt => .ok ((pyGet renderers layout).getD dflt)

example :
    get_pagination_context 10 3 11 (some "/list?sort=name&page=1") none none
      (some "page=3") "page" =
      .ok { govbrds_pagination_url := "/list?sort=name&page=3", num_pages := 10,
            current_page := 3, first_page := 1, last_page := 10,
            pages_shown := [1, 2, 3, 4, 5, 6, 7, 8, 9, 10], pages_back := none,
            pages_forward := none, pagination_css_classes := "pagination",
            parameter_name := "page" } := rfl

example :
    computeWindow 11 5 1 =
      { first_page := 1, last_page := 5, pages_back := none,
        pages_forward := none, pages_shown := [1, 2, 3, 4, 5] } := by
  decide

/-! ### Helper lemmas: dictionaries -/

theorem hasKey_iff_mem {α : Type} (d : List (String × α)) (k : String) :
    hasKey d k = true ↔ k ∈ keysOf d := by
  induction d with
  | nil => simp [hasKey, pyGet, keysOf]
  | cons kv rest ih =>
    simp only [hasKey, pyGet, keysOf, List.map_cons, List.mem_cons] at *
    by_cases h : kv.1 = k
    · simp [h]
    · simp [h, Ne.symm h, ih]

theorem pyGet_eq_none_of_not_mem {α : Type} (d : List (String × α)) (k : String)
    (h : k ∉ keysOf d) : pyGet d k = none :=
  Option.not_isSome_iff_eq_none.mp (fun hk => h ((hasKey_iff_mem d k).1 hk))

theorem pyGet_append {α : Type} (d e : List (String × α)) (k : String)
    (h : pyGet d k = none) : pyGet (d ++ e) k = pyGet e k := by
  induction d with
  | nil => rfl
  | cons kv rest ih =>
    simp only [pyGet, List.cons_append] at h ⊢
    by_cases hh : kv.1 = k
    · simp [hh] at h
    · rw [if_neg hh] at h ⊢
      exact ih h

theorem pyGet_append_single_ne {α : Type} (d : List (String × α)) (k k' : String)
    (v : α) (hne : k' ≠ k) : pyGet (d ++ [(k', v)]) k = pyGet d k := by
  induction d with
  | nil => simp [pyGet, if_neg hne]
  | cons kv rest ih =>
    simp only [List.cons_append, pyGet]
    by_cases hh : kv.1 = k
    · rw [if_pos hh, if_pos hh]
    · rw [if_neg hh, if_neg hh]
      exact ih

theorem pyGet_map_set_self {α : Type} (d : List (String × α)) (k : String) (v : α)
    (h : hasKey d k = true) :
    pyGet (d.map (fun kv => if kv.1 = k then (kv.1, v) else kv)) k = some v := by
  induction d with
  | nil => simp [hasKey, pyGet] at h
  | cons kv rest ih =>
    by_cases hh : kv.1 = k
    · simp [pyGet, hh]
    · simp only [hasKey, pyGet, if_neg hh] at h
      simp only [List.map_cons, if_neg hh, pyGet]
      exact ih h

theorem pyGet_map_set_ne {α : Type} (d : List (String × α)) (k k' : String) (v : α)
    (hne : k' ≠ k) :
    pyGet (d.map (fun kv => if kv.1 = k' then (kv.1, v) else kv)) k = pyGet d k := by
  induction d with
  | nil => rfl
  | cons kv rest ih =>
    by_cases hh : kv.1 = k'
    · have hk : ¬ kv.1 = k := fun e => hne (hh.symm.trans e)
      simp only [List.map_cons, if_pos hh, pyGet, if_neg hk]
      exact ih
    · simp only [List.map_cons, if_neg hh, pyGet]
      by_cases h2 : kv.1 = k
      · rw [if_pos h2, if_pos h2]
      · rw [if_neg h2, if_neg h2]
        exact ih

theorem pyGet_dictSet_self {α : Type} (d : List (String × α)) (k : String) (v : α) :
    pyGet (dictSet d k v) k = some v := by
  unfold dictSet
  split_ifs with h
  · exact pyGet_map_set_self d k v h
  · have hnone : pyGet d k = none :=
      Option.not_isSome_iff_eq_none.mp (by simpa [hasKey] using h)
    rw [pyGet_append d _ k hnone]
    simp [pyGet]

theorem pyGet_dictSet_ne {α : Type} (d : List (String × α)) (k k' : String) (v : α)
    (hne : k' ≠ k) : pyGet (dictSet d k' v) k = pyGet d k := by
  unfold dictSet
  split_ifs with h
  · exact pyGet_map_set_ne d k k' v hne
  · exact pyGet_append_single_ne d k k' v hne

theorem keysOf_dictSet {α : Type} (d : List (String × α)) (k : String) (v : α) :
    keysOf (dictSet d k v) =
      if hasKey d k then keysOf d else keysOf d ++ [k] := by
  unfold dictSet
  split_ifs with h
  · simp only [keysOf, List.map_map]
    congr 1
    funext kv
    by_cases hh : kv.1 = k <;> simp [hh]
  · simp [keysOf]

theorem keysOf_dictSet_nodup {α : Type} (d : List (String × α)) (k : String) (v : α)
    (h : (keysOf d).Nodup) : (keysOf (dictSet d k v)).Nodup := by
  rw [keysOf_dictSet]
  split_ifs with hk
  · exact h
  · have hm : k ∉ keysOf d := fun hm => hk ((hasKey_iff_mem d k).2 hm)
    simp [List.nodup_append, h, hm]

theorem keysOf_dictUpdate_nodup {α : Type} (base other : List (String × α))
    (h : (keysOf base).Nodup) : (keysOf (dictUpdate base other)).Nodup := by
  induction other generalizing base with
  | nil => exact h
  | cons kv rest ih =>
    exact ih (dictSet base kv.1 kv.2) (keysOf_dictSet_nodup base kv.1 kv.2 h)

theorem pyGet_dictUpdate {α : Type} (base other : List (String × α)) (k : String)
    (hnd : (keysOf other).Nodup) :
    pyGet (dictUpdate base other) k =
      match pyGet other k with
      | some v => some v
      | none => pyGet base k := by
  induction other generalizing base with
  | nil => rfl
  | cons kv rest ih =>
    have hnd' : (keysOf rest).Nodup := by
      simpa [keysOf] using hnd.of_cons
    have hkv : kv.1 ∉ keysOf rest := by
      have h2 := hnd
      simp only [keysOf, List.map_cons, List.nodup_cons] at h2
      exact h2.1
    show pyGet (dictUpdate (dictSet base kv.1 kv.2) rest) k = _
    rw [ih (dictSet base kv.1 kv.2) hnd']
    by_cases hh : kv.1 = k
    · have hrest : pyGet rest k = none :=
        pyGet_eq_none_of_not_mem rest k (hh ▸ hkv)
      rw [hrest]
      simp only [pyGet, if_pos hh, hrest]
      exact hh ▸ pyGet_dictSet_self base kv.1 kv.2
    · simp only [pyGet, if_neg hh]
      cases hr : pyGet rest k with
      | some v => rfl
      | none => exact pyGet_dictSet_ne base k kv.1 kv.2 hh

/-! ### Helper lemmas: the pagination window -/

theorem clampIte_eq_min (a b : Int) : (if a > b then b else a) = min a b := by
  rw [Int.min_def]
  split <;> split <;> omega

theorem specComputeWindow_eq_computeWindow (w t c : Int) :
    specComputeWindow w t c = computeWindow w t c := by
  simp only [specComputeWindow, computeWindow, ← clampIte_eq_min]

theorem pagesRange_length (f l : Int) :
    (pagesRange f l).length = (l + 1 - f).toNat := by
  rw [pagesRange, List.length_map, List.length_range]

theorem pagesRange_get (f l : Int) (i : Nat) (h : i < (pagesRange f l).length) :
    (pagesRange f l).get ⟨i, h⟩ = f + i := by
  simp only [pagesRange, List.get_eq_getElem, List.getElem_map,
    List.getElem_range, Int.ofNat_eq_coe]

theorem mem_pagesRange (f l p : Int) :
    p ∈ pagesRange f l ↔ f ≤ p ∧ p ≤ l := by
  simp only [pagesRange, List.mem_map, List.mem_range, Int.ofNat_eq_coe]
  constructor
  · rintro ⟨i, hi, rfl⟩
    omega
  · rintro ⟨h1, h2⟩
    exact ⟨(p - f).toNat, by omega, by omega⟩

theorem computeWindow_pages_shown (w t c : Int) :
    (computeWindow w t c).pages_shown =
      pagesRange (computeWindow w t c).first_page (computeWindow w t c).last_page := by
  simp only [computeWindow]
  split_ifs <;> rfl

theorem computeWindow_first_last (w t c : Int) (hw : 1 ≤ w) (ht : 1 ≤ t)
    (hc1 : 1 ≤ c) (hc2 : c ≤ t) :
    1 ≤ (computeWindow w t c).first_page ∧
    (computeWindow w t c).first_page ≤ c ∧
    c ≤ (computeWindow w t c).last_page ∧
    (computeWindow w t c).last_page ≤ t := by
  simp only [computeWindow]
  split_ifs <;> dsimp only <;> omega

theorem computeWindow_total_zero (w : Int) (hw : 1 ≤ w) :
    computeWindow w 0 1 =
      { first_page := 1, last_page := 0, pages_back := none,
        pages_forward := none, pages_shown := [] } := by
  simp only [computeWindow]
  split_ifs <;> simp_all [pagesRange] <;> omega

/-! ### The claims -/

/-- C1: for every `windowSize ≥ 1`, `totalPages ≥ 0` and `currentPage` with
`1 ≤ currentPage ≤ max(totalPages, 1)`, the pagination window computation of
`get_pagination_context` produces `firstPage`, `lastPage`, `backTarget`,
`forwardTarget` and `pagesShown` exactly as the reference algorithm of spec
section 4.3 (embedded as `specComputeWindow`); in particular, for
`totalPages = 100`, `currentPage = 50`, `windowSize = 11` the result is
`firstPage = 45`, `lastPage = 55`, `backTarget = 40`, `forwardTarget = 60`. -/
theorem C1_window_matches_spec_algorithm :
    (∀ windowSize totalPages currentPage : Int,
        1 ≤ windowSize → 0 ≤ totalPages → 1 ≤ currentPage →
        currentPage ≤ max totalPages 1 →
        computeWindow windowSize totalPages currentPage =
          specComputeWindow windowSize totalPages currentPage) ∧
    computeWindow 11 100 50 =
      { first_page := 45, last_page := 55, pages_back := some 40,
        pages_forward := some 60,
        pages_shown := [45, 46, 47, 48, 49, 50, 51, 52, 53, 54, 55] } :=
  ⟨fun w t c _ _ _ _ => (specComputeWindow_eq_computeWindow w t c).symm, by decide⟩

/-- Witness for C1 at `windowSize = 7`, `totalPages = 30`, `currentPage = 12`. -/
theorem C1_window_matches_spec_algorithm_witness :
    computeWindow 7 30 12 = specComputeWindow 7 30 12 :=
  C1_window_matches_spec_algorithm.1 7 30 12 (by decide) (by decide) (by decide)
    (by decide)

/-- C2: for every `totalPages > 0`, `windowSize ≥ 1` and `currentPage` with
`1 ≤ currentPage ≤ totalPages`, the pagination window satisfies
`1 ≤ firstPage ≤ currentPage ≤ lastPage ≤ totalPages`, and `pagesShown` is the
contiguous ascending sequence from `firstPage` to `lastPage` inclusive (its
length is `lastPage + 1 - firstPage`, its `i`-th element is `firstPage + i`,
and every element lies in `[1, totalPages]`). -/
theorem C2_window_bounds_and_contiguity (w t c : Int) (hw : 1 ≤ w) (ht : 1 ≤ t)
    (hc1 : 1 ≤ c) (hc2 : c ≤ t) :
    1 ≤ (computeWindow w t c).first_page ∧
    (computeWindow w t c).first_page ≤ c ∧
    c ≤ (computeWindow w t c).last_page ∧
    (computeWindow w t c).last_page ≤ t ∧
    (computeWindow w t c).pages_shown.length
      = ((computeWindow w t c).last_page + 1
          - (computeWindow w t c).first_page).toNat ∧
    (∀ i (h : i < (computeWindow w t c).pages_shown.length),
        (computeWindow w t c).pages_shown.get ⟨i, h⟩
          = (computeWindow w t c).first_page + i) ∧
    (∀ p ∈ (computeWindow w t c).pages_shown, 1 ≤ p ∧ p ≤ t) := by
  obtain ⟨h1, h2, h3, h4⟩ := computeWindow_first_last w t c hw ht hc1 hc2
  refine ⟨h1, h2, h3, h4, ?_, ?_, ?_⟩
  · rw [computeWindow_pages_shown, pagesRange_length]
  · intro i h
    have hidx := h
    rw [computeWindow_pages_shown] at hidx
    have hget := pagesRange_get (computeWindow w t c).first_page
      (computeWindow w t c).last_page i hidx
    simpa [computeWindow_pages_shown] using hget
  · intro p hp
    rw [computeWindow_pages_shown, mem_pagesRange] at hp
    omega

/-- Witness for C2 at `windowSize = 11`, `totalPages = 100`,
`currentPage = 50`. -/
theorem C2_window_bounds_and_contiguity_witness :
    1 ≤ (computeWindow 11 100 50).first_page ∧
    (computeWindow 11 100 50).first_page ≤ 50 ∧
    50 ≤ (computeWindow 11 100 50).last_page ∧
    (computeWindow 11 100 50).last_page ≤ 100 ∧
    (computeWindow 11 100 50).pages_shown.length
      = ((computeWindow 11 100 50).last_page + 1
          - (computeWindow 11 100 50).first_page).toNat ∧
    (∀ i (h : i < (computeWindow 11 100 50).pages_shown.length),
        (computeWindow 11 100 50).pages_shown.get ⟨i, h⟩
          = (computeWindow 11 100 50).first_page + i) ∧
    (∀ p ∈ (computeWindow 11 100 50).pages_shown, 1 ≤ p ∧ p ≤ 100) :=
  C2_window_bounds_and_contiguity 11 100 50 (by decide) (by decide) (by decide)
    (by decide)

/-- C3: for `totalPages = 0`, `currentPage = 1` and any `windowSize ≥ 1`,
`get_pagination_context` returns normally (no error), with `pagesShown` empty
and both `pages_back` and `pages_forward` absent. -/
theorem C3_zero_total_pages (w : Int) (hw : 1 ≤ w) :
    get_pagination_context 0 1 w none none none none "page" = .ok
      { govbrds_pagination_url := "", num_pages := 0, current_page := 1,
        first_page := 1, last_page := 0, pages_shown := [],
        pages_back := none, pages_forward := none,
        pagination_css_classes := "pagination", parameter_name := "page" } := by
  simp only [get_pagination_context, if_neg (by omega : ¬ w < 1),
    computeWindow_total_zero w hw]
  rfl

/-- Witness for C3 at `windowSize = 7`. -/
theorem C3_zero_total_pages_witness :
    get_pagination_context 0 1 7 none none none none "page" = .ok
      { govbrds_pagination_url := "", num_pages := 0, current_page := 1,
        first_page := 1, last_page := 0, pages_shown := [],
        pages_back := none, pages_forward := none,
        pagination_css_classes := "pagination", parameter_name := "page" } :=
  C3_zero_total_pages 7 (by decide)

/-- C4: `get_pagination_context` fails with the "pages_to_show must be a
positive integer" `ValueError` (carrying the given value) exactly when the
integer `pages_to_show` is `< 1`; for every `pages_to_show ≥ 1` this error is
not raised, whatever the other arguments are. -/
theorem C4_pages_to_show_validation (np cp w : Int) (url jc extra : Option String)
    (pn : String) :
    get_pagination_context np cp w url none jc extra pn
        = .error (.invalidPagesToShow w) ↔ w < 1 := by
  constructor
  · intro hg
    by_contra h
    rw [get_pagination_context, if_neg h] at hg
    rcases jc with _ | j
    · simp at hg
    · dsimp only at hg
      split_ifs at hg <;> simp_all
  · intro h
    rw [get_pagination_context, if_pos h]

/-- C5: merging the parsed `extra` query parameters into the base URL's query
replaces (does not append to) the values of every key present in the merge
dict, leaves every other key's values unchanged, and keeps keys unique; in
particular merging `page=3` into `/list?sort=name&page=1` yields exactly
`/list?sort=name&page=3`. -/
theorem C5_query_merge_replaces :
    (∀ (base extraParams : QueryDict) (k : String),
        (keysOf extraParams).Nodup →
        (∀ vs, pyGet extraParams k = some vs →
            pyGet (dictUpdate base extraParams) k = some vs) ∧
        (pyGet extraParams k = none →
            pyGet (dictUpdate base extraParams) k = pyGet base k) ∧
        ((keysOf base).Nodup → (keysOf (dictUpdate base extraParams)).Nodup)) ∧
    get_pagination_context 10 3 11 (some "/list?sort=name&page=1") none none
        (some "page=3") "page" = .ok
      { govbrds_pagination_url := "/list?sort=name&page=3", num_pages := 10,
        current_page := 3, first_page := 1, last_page := 10,
        pages_shown := [1, 2, 3, 4, 5, 6, 7, 8, 9, 10], pages_back := none,
        pages_forward := none, pagination_css_classes := "pagination",
        parameter_name := "page" } := by
  constructor
  · intro base extraParams k hnd
    refine ⟨fun vs hvs => ?_, fun hn => ?_,
      fun hb => keysOf_dictUpdate_nodup base extraParams hb⟩
    · rw [pyGet_dictUpdate base extraParams k hnd, hvs]
    · rw [pyGet_dictUpdate base extraParams k hnd, hn]
  · rfl

/-- Witness for C5: merging `page ↦ ["3"]` into
`sort ↦ ["name"], page ↦ ["1"]` stores exactly `["3"]` under `page`. -/
theorem C5_query_merge_replaces_witness :
    pyGet (dictUpdate [("sort", ["name"]), ("page", ["1"])] [("page", ["3"])])
        "page" = some ["3"] :=
  (C5_query_merge_replaces.1 [("sort", ["name"]), ("page", ["1"])]
      [("page", ["3"])] "page" (by decide)).1 ["3"] (by decide)

/-- C6: when the renderer variant map contains a `"default"` key, renderer
resolution returns the entry stored under the requested layout key when that
key is present (the `"default"` entry is not consulted), and returns the
`"default"` entry when the requested layout key — the empty string when no
layout is given — is absent. -/
theorem C6_renderer_resolution (renderers : List (String × String))
    (layout d : String) (hd : pyGet renderers "default" = some d) :
    (∀ p, pyGet renderers layout = some p →
        get_renderer renderers (some layout) = .ok p) ∧
    (pyGet renderers layout = none →
        get_renderer renderers (some layout) = .ok d) ∧
    (pyGet renderers "" = none → get_renderer renderers none = .ok d) := by
  refine ⟨fun p hp => ?_, fun hn => ?_, fun hn => ?_⟩ <;>
    simp [get_renderer, hd, *]

/-- Witness for C6: with `default` and `horizontal` registered, requesting
`horizontal` returns the horizontal renderer, not the default. -/
theorem C6_renderer_resolution_witness :
    (∀ p, pyGet [("default", "renderers.D"), ("horizontal", "renderers.H")]
            "horizontal" = some p →
        get_renderer [("default", "renderers.D"), ("horizontal", "renderers.H")]
            (some "horizontal") = .ok p) ∧
    (pyGet [("default", "renderers.D"), ("horizontal", "renderers.H")]
          "horizontal" = none →
        get_renderer [("default", "renderers.D"), ("horizontal", "renderers.H")]
            (some "horizontal") = .ok "renderers.D") ∧
    (pyGet [("default", "renderers.D"), ("horizontal", "renderers.H")] "" = none →
        get_renderer [("default", "renderers.D"), ("horizontal", "renderers.H")]
            none = .ok "renderers.D") :=
  C6_renderer_resolution [("default", "renderers.D"), ("horizontal", "renderers.H")]
    "horizontal" "renderers.D" (by decide)

/-- C7: `get_govbrds_setting` returns the value stored under the name in the
host application's `GOVBRDS` table when the name is a key there, otherwise the
value under the name in `GOVBRDS_DEFAULTS` when present there, otherwise the
supplied fallback default; presence of the key, not truthiness of the value,
decides each level, and no error is ever raised. -/
theorem C7_settings_cascade (host : List (String × SettingValue)) (name : String)
    (dflt : SettingValue) :
    (∀ v, pyGet host name = some v → get_govbrds_setting host name dflt = v) ∧
    (pyGet host name = none →
        ∀ v, pyGet GOVBRDS_DEFAULTS name = some v →
          get_govbrds_setting host name dflt = v) ∧
    (pyGet host name = none → pyGet GOVBRDS_DEFAULTS name = none →
        get_govbrds_setting host name dflt = dflt) := by
  refine ⟨fun v hv => ?_, fun hn v hv => ?_, fun hn hn2 => ?_⟩ <;>
    simp [get_govbrds_setting, *]

/-- Witness for C7: a host table storing the falsy value `""` under
`wrapper_class` wins over the library default `"mb-3"`, and for an absent
host key the library default is returned. -/
theorem C7_settings_cascade_witness :
    (∀ v, pyGet [("wrapper_class", SettingValue.str "")] "wrapper_class" = some v →
        get_govbrds_setting [("wrapper_class", SettingValue.str "")]
            "wrapper_class" (SettingValue.str "fb") = v) ∧
    (pyGet [("wrapper_class", SettingValue.str "")] "wrapper_class" = none →
        ∀ v, pyGet GOVBRDS_DEFAULTS "wrapper_class" = some v →
          get_govbrds_setting [("wrapper_class", SettingValue.str "")]
              "wrapper_class" (SettingValue.str "fb") = v) ∧
    (pyGet [("wrapper_class", SettingValue.str "")] "wrapper_class" = none →
        pyGet GOVBRDS_DEFAULTS "wrapper_class" = none →
        get_govbrds_setting [("wrapper_class", SettingValue.str "")]
            "wrapper_class" (SettingValue.str "fb") = SettingValue.str "fb") :=
  C7_settings_cascade [("wrapper_class", SettingValue.str "")] "wrapper_class"
    (SettingValue.str "fb")

/-- C8 counterexample: the claim says every `justify_content` value other than
`"start"`, `"center"`, `"end"` raises an error, but the empty string — which
is none of the three — is falsy in Python, so the source skips the whole
justification branch and returns normally without raising. -/
theorem C8_justify_content_counterexample :
    ("" ≠ "start" ∧ "" ≠ "center" ∧ "" ≠ "end") ∧
    get_pagination_context 10 3 11 none none (some "") none "page" = .ok
      { govbrds_pagination_url := "", num_pages := 10, current_page := 3,
        first_page := 1, last_page := 10,
        pages_shown := [1, 2, 3, 4, 5, 6, 7, 8, 9, 10], pages_back := none,
        pages_forward := none, pagination_css_classes := "pagination",
        parameter_name := "page" } :=
  ⟨by decide, rfl⟩

/-- C8 (amended): for every non-empty `justify_content` value other than
`"start"`, `"center"`, `"end"`, `get_pagination_context` raises the
`InvalidArgument` error naming the value; for each of the three valid values
it does not raise and adds the class `justify-content-<value>` to the
pagination CSS classes. (An absent or empty `justify_content` is treated as
unset: no class is added and no error is raised.) -/
theorem C8_justify_content_validation (np cp w : Int) (url extra : Option String)
    (pn : String) (j : String) (hw : 1 ≤ w) (hj : j ≠ "") :
    (j ∉ (["start", "center", "end"] : List String) →
        get_pagination_context np cp w url none (some j) extra pn
          = .error (.invalidJustifyContent j)) ∧
    (j ∈ (["start", "center", "end"] : List String) →
        ∃ ctx, get_pagination_context np cp w url none (some j) extra pn
            = .ok ctx ∧
          ctx.pagination_css_classes = "pagination justify-content-" ++ j) := by
  rw [get_pagination_context, if_neg (by omega : ¬ w < 1)]
  constructor
  · intro hnot
    have hcond : ¬ (j = "start" ∨ j = "center" ∨ j = "end") := by simpa using hnot
    dsimp only
    rw [if_neg hj, if_neg hcond]
  · intro hmem
    have hcond : j = "start" ∨ j = "center" ∨ j = "end" := by simpa using hmem
    dsimp only
    rw [if_neg hj, if_pos hcond]
    refine ⟨_, rfl, ?_⟩
    show "pagination" ++ " " ++ ("justify-content-" ++ j) = _
    rw [← String.append_assoc]
    congr 1

/-- Witness for C8 at `justify_content = "center"`. -/
theorem C8_justify_content_validation_witness :
    ("center" ∉ (["start", "center", "end"] : List String) →
        get_pagination_context 10 3 11 none none (some "center") none "page"
          = .error (.invalidJustifyContent "center")) ∧
    ("center" ∈ (["start", "center", "end"] : List String) →
        ∃ ctx, get_pagination_context 10 3 11 none none (some "center") none "page"
            = .ok ctx ∧
          ctx.pagination_css_classes = "pagination justify-content-" ++ "center") :=
  C8_justify_content_validation 10 3 11 none none "page" "center" (by decide)
    (by decide)

/-- C9: for every `windowSize ≥ 1`, `totalPages ≥ 0` and `currentPage` with
`1 ≤ currentPage ≤ max(totalPages, 1)`, the number of pages shown is at most
`windowSize + 1`. -/
theorem C9_pages_shown_length_bound (w t c : Int) (hw : 1 ≤ w) (ht : 0 ≤ t)
    (hc1 : 1 ≤ c) (hc2 : c ≤ max t 1) :
    ((computeWindow w t c).pages_shown.length : Int) ≤ w + 1 := by
  rw [computeWindow_pages_shown, pagesRange_length]
  simp only [computeWindow]
  split_ifs <;> dsimp only <;>
    first
      | omega
      | ((simp only [Int.max_def] at *) <;> (try split_ifs at *) <;> omega)

/-- Witness for C9 at `windowSize = 3`, `totalPages = 3`, `currentPage = 1`
(the window covers everything and shows `windowSize + 1` pages). -/
theorem C9_pages_shown_length_bound_witness :
    ((computeWindow 3 3 1).pages_shown.length : Int) ≤ 3 + 1 :=
  C9_pages_shown_length_bound 3 3 1 (by decide) (by decide) (by decide) (by decide)

/-- C10: for every `totalPages ≥ 1`, `windowSize ≥ 1` and `currentPage` with
`1 ≤ currentPage ≤ totalPages`, a present `pages_back` satisfies
`1 ≤ pages_back ≤ firstPage` and a present `pages_forward` satisfies
`lastPage ≤ pages_forward ≤ totalPages`: the jump targets never point outside
`[1, totalPages]` and never strictly inside the displayed window. -/
theorem C10_jump_targets_bounded (w t c : Int) (hw : 1 ≤ w) (ht : 1 ≤ t)
    (hc1 : 1 ≤ c) (hc2 : c ≤ t) :
    (∀ b, (computeWindow w t c).pages_back = some b →
        1 ≤ b ∧ b ≤ (computeWindow w t c).first_page) ∧
    (∀ f, (computeWindow w t c).pages_forward = some f →
        (computeWindow w t c).last_page ≤ f ∧ f ≤ t) := by
  simp only [computeWindow]
  split_ifs <;> dsimp only <;>
    constructor <;> intro x hx <;>
    (try split_ifs at hx) <;>
    simp only [Option.some.injEq, reduceCtorEq] at hx <;>
    omega

/-- Witness for C10 at `windowSize = 11`, `totalPages = 100`,
`currentPage = 50` (both targets present: 40 and 60). -/
theorem C10_jump_targets_bounded_witness :
    (∀ b, (computeWindow 11 100 50).pages_back = some b →
        1 ≤ b ∧ b ≤ (computeWindow 11 100 50).first_page) ∧
    (∀ f, (computeWindow 11 100 50).pages_forward = some f →
        (computeWindow 11 100 50).last_page ≤ f ∧ f ≤ 100) :=
  C10_jump_targets_bounded 11 100 50 (by decide) (by decide) (by decide) (by decide)

end DjangoGovbrds
